import Mathlib

/-!
Shallow embedding of the device firmware upgrade state machine and batch
orchestrator of `openwisp_firmware_upgrader/base/models.py`.

Django model rows become Lean structures; querysets become lists; the
effectful `upgrade()` method of `AbstractUpgradeOperation` becomes a pure
function from an environment (describing what the external collaborators —
connection provider, upgrader, clock, operation table — do during the run)
to a result record that captures the final operation row, the final
connection row, whether the DeviceFirmware was marked installed, whether an
exception propagated out, and an ordered trace of the side effects.
-/

namespace FwUpgrader

/-- Status values of `AbstractUpgradeOperation.STATUS_CHOICES`. -/
inductive UOStatus
  | inProgress
  | success
  | failed
  | aborted
deriving DecidableEq

/-- Status values of `AbstractBatchUpgradeOperation.STATUS_CHOICES`. -/
inductive BatchStatus
  | idle
  | inProgress
  | success
  | failed
deriving DecidableEq

/-- `AbstractBatchUpgradeOperation.update`: reads the statuses of the child
operations (`self.upgradeoperation_set`); returns the unchanged current
status while any child is `in-progress`, otherwise `failed` if any child is
`failed`, otherwise `success`. -/
def batchUpdate (children : List UOStatus) (current : BatchStatus) : BatchStatus :=
  if children.any (· == UOStatus.inProgress) then current
  else if children.any (· == UOStatus.failed) then BatchStatus.failed
  else BatchStatus.success

/-- A row of the `UpgradeOperation` table as seen by the concurrency query in
`AbstractUpgradeOperation.upgrade` (primary key, device foreign key, status). -/
structure OpRef where
  pk : Nat
  device : Nat
  status : UOStatus
deriving DecidableEq

/-- The mutable state of one `AbstractUpgradeOperation` row that
`upgrade()` touches: primary key, device, status and the append-only log
(modelled as the list of lines appended by `log_line`). -/
structure UpgradeOperation where
  pk : Nat
  device : Nat
  status : UOStatus
  log : List String
deriving DecidableEq

/-- The fields of the device connection row mutated by `upgrade()` on a
`ReconnectionFailed` error; timestamps are abstract `Nat` instants. -/
structure DeviceConnection where
  is_working : Bool
  failure_reason : String
  last_attempt : Nat
deriving DecidableEq

/-- Classification of what `upgrader.upgrade(self.image.file)` does, matching
the `except` clauses of `AbstractUpgradeOperation.upgrade`: `UpgradeNotNeeded`,
`UpgradeAborted`, `RecoverableFailure`, `ReconnectionFailed`, any other
unexpected exception, or a normal return. -/
inductive UpgraderOutcome
  | notNeeded
  | upgradeAborted
  | recoverableFailure (msg : String)
  | reconnectionFailed (msg : String)
  | unexpectedError (msg : String)
  | ok
deriving DecidableEq

/-- What `DeviceConnection.get_working_connection(self.device)` does:
succeeds with a connection, raises `NoWorkingDeviceConnectionError` with
`connection is None` (no connection objects exist), or raises it after all
candidate connections failed (carrying the per-credential log lines built
from the device's `deviceconnection_set`). -/
inductive ConnAcquire
  | ok (conn : DeviceConnection)
  | noConnObjects
  | allConnectionsFailed (attemptLogs : List String)
deriving DecidableEq

/-- The external world of one `upgrade()` run: the connection provider's
behaviour, the current rows of the `UpgradeOperation` table, whether
`get_upgrader_class_from_device_connection` finds an upgrader class, the
upgrader invocation's outcome, and the value `timezone.now()` returns when
sampled in the `ReconnectionFailed` handler. -/
structure UpgradeEnv where
  connResult : ConnAcquire
  allOps : List OpRef
  upgraderClassFound : Bool
  outcome : UpgraderOutcome
  now : Nat
deriving DecidableEq

/-- Observable side effects of an `upgrade()` run, in program order. -/
inductive RunEvent
  | logAppend (line : String)
  | statusSet (s : UOStatus)
  | upgraderInvoked
  | nowSampled (t : Nat)
  | connSaved
  | opSaved
  | dfMarkedInstalled
deriving DecidableEq

/-- Result of one `upgrade()` run: the final operation row, the final state
of the connection row when one was obtained, whether the device's
`DeviceFirmware` was marked installed at the end, whether an exception
propagated out of `upgrade()`, whether the upgrader was invoked, and the
ordered trace of side effects. -/
structure UpgradeResult where
  op : UpgradeOperation
  conn : Option DeviceConnection
  markedInstalled : Bool
  raised : Bool
  upgraderInvoked : Bool
  events : List RunEvent
deriving DecidableEq

/-- `AbstractUpgradeOperation.log_line`: appends a line to the log. -/
def logLine (op : UpgradeOperation) (line : String) : UpgradeOperation :=
  { op with log := op.log ++ [line] }

def noConnectionMessage : String := "No device connection available"

def triedAllMessage : String :=
  "Failed to establish connection with the device, tried all DeviceConnections"

def abortingMessage : String := "Another upgrade operation is in progress, aborting..."

def retriedSoonMessage : String := "The upgrade operation will be retried soon."

def recoverableDetectedMessage (cause : String) : String :=
  "Detected a recoverable failure: " ++ cause ++ ".\n"

def maxRetriesMessage (cause : String) : String :=
  "Max retries exceeded. Upgrade failed: " ++ cause ++ "."

/-- `AbstractUpgradeOperation._recoverable_failure_handler`: when
`recoverable` is true it logs the failure and the retry notice and re-raises
the error (second component `true`); otherwise it sets the status to
`failed` and logs that the retries were exhausted. The third component is
the trace of effects the handler performs. -/
def recoverableFailureHandler (recoverable : Bool) (cause : String)
    (op : UpgradeOperation) : UpgradeOperation × Bool × List RunEvent :=
  if recoverable then
    (logLine (logLine op (recoverableDetectedMessage cause)) retriedSoonMessage,
     true,
     [RunEvent.logAppend (recoverableDetectedMessage cause),
      RunEvent.logAppend retriedSoonMessage, RunEvent.opSaved])
  else
    (logLine { op with status := UOStatus.failed } (maxRetriesMessage cause),
     false,
     [RunEvent.statusSet UOStatus.failed,
      RunEvent.logAppend (maxRetriesMessage cause)])

/-- The queryset
`UpgradeOperation.objects.filter(device=self.device, status="in-progress").exclude(pk=self.pk)`
used by `upgrade()` to detect a concurrent operation on the same device. -/
def conflictQueryset (allOps : List OpRef) (device pk : Nat) : List OpRef :=
  (allOps.filter (fun o => o.device == device && o.status == UOStatus.inProgress)).filter
    (fun o => o.pk != pk)

/-- `AbstractUpgradeOperation.upgrade(recoverable)` as a pure function of the
environment and the operation row, following the Python control flow branch
by branch (see `base/models.py`, `upgrade`). -/
def upgradeRun (env : UpgradeEnv) (recoverable : Bool)
    (op0 : UpgradeOperation) : UpgradeResult :=
  match env.connResult with
  | ConnAcquire.noConnObjects =>
      { op := logLine op0 noConnectionMessage
        conn := none
        markedInstalled := false
        raised := false
        upgraderInvoked := false
        events := [RunEvent.logAppend noConnectionMessage, RunEvent.opSaved] }
  | ConnAcquire.allConnectionsFailed attemptLogs =>
      let op1 := attemptLogs.foldl logLine op0
      let h := recoverableFailureHandler recoverable triedAllMessage op1
      if recoverable then
        { op := h.1
          conn := none
          markedInstalled := false
          raised := true
          upgraderInvoked := false
          events := attemptLogs.map RunEvent.logAppend ++ h.2.2 }
      else
        { op := h.1
          conn := none
          markedInstalled := false
          raised := false
          upgraderInvoked := false
          events := attemptLogs.map RunEvent.logAppend ++ h.2.2 ++ [RunEvent.opSaved] }
  | ConnAcquire.ok conn0 =>
      if (conflictQueryset env.allOps op0.device op0.pk).length > 0 then
        { op := { logLine op0 abortingMessage with status := UOStatus.aborted }
          conn := some conn0
          markedInstalled := false
          raised := false
          upgraderInvoked := false
          events := [RunEvent.logAppend abortingMessage,
            RunEvent.statusSet UOStatus.aborted, RunEvent.opSaved] }
      else if env.upgraderClassFound = false then
        { op := op0
          conn := some conn0
          markedInstalled := false
          raised := false
          upgraderInvoked := false
          events := [] }
      else
        match env.outcome with
        | UpgraderOutcome.notNeeded =>
            { op := { op0 with status := UOStatus.success }
              conn := some conn0
              markedInstalled := true
              raised := false
              upgraderInvoked := true
              events := [RunEvent.upgraderInvoked,
                RunEvent.statusSet UOStatus.success, RunEvent.opSaved,
                RunEvent.dfMarkedInstalled] }
        | UpgraderOutcome.upgradeAborted =>
            { op := { op0 with status := UOStatus.aborted }
              conn := some conn0
              markedInstalled := false
              raised := false
              upgraderInvoked := true
              events := [RunEvent.upgraderInvoked,
                RunEvent.statusSet UOStatus.aborted, RunEvent.opSaved] }
        | UpgraderOutcome.recoverableFailure msg =>
            let h := recoverableFailureHandler recoverable msg op0
            if recoverable then
              { op := h.1
                conn := some conn0
                markedInstalled := false
                raised := true
                upgraderInvoked := true
                events := RunEvent.upgraderInvoked :: h.2.2 }
            else
              { op := h.1
                conn := some conn0
                markedInstalled := false
                raised := false
                upgraderInvoked := true
                events := RunEvent.upgraderInvoked :: (h.2.2 ++ [RunEvent.opSaved]) }
        | UpgraderOutcome.reconnectionFailed msg =>
            { op := { logLine op0 msg with status := UOStatus.failed }
              conn := some (DeviceConnection.mk false msg env.now)
              markedInstalled := true
              raised := false
              upgraderInvoked := true
              events := [RunEvent.upgraderInvoked, RunEvent.logAppend msg,
                RunEvent.opSaved, RunEvent.statusSet UOStatus.failed,
                RunEvent.nowSampled env.now, RunEvent.connSaved,
                RunEvent.opSaved, RunEvent.dfMarkedInstalled] }
        | UpgraderOutcome.unexpectedError msg =>
            { op := { logLine op0 msg with status := UOStatus.failed }
              conn := some conn0
              markedInstalled := false
              raised := false
              upgraderInvoked := true
              events := [RunEvent.upgraderInvoked, RunEvent.logAppend msg,
                RunEvent.opSaved, RunEvent.statusSet UOStatus.failed,
                RunEvent.opSaved] }
        | UpgraderOutcome.ok =>
            { op := { op0 with status := UOStatus.success }
              conn := some conn0
              markedInstalled := true
              raised := false
              upgraderInvoked := true
              events := [RunEvent.upgraderInvoked,
                RunEvent.statusSet UOStatus.success, RunEvent.opSaved,
                RunEvent.dfMarkedInstalled] }

/-- Projects a `statusSet` event to the status value it wrote. -/
def statusOfEvent : RunEvent → Option UOStatus
  | RunEvent.statusSet s => some s
  | _ => none

/-- The sequence of assignments to `self.status` performed during a run, in
program order (extracted from the event trace). -/
def statusWrites (res : UpgradeResult) : List UOStatus :=
  res.events.filterMap statusOfEvent

/-- A connection in working state, used as concrete input. -/
def demoConn : DeviceConnection := ⟨true, "", 0⟩

/-- A freshly created operation row (initial status `in-progress`). -/
def opA : UpgradeOperation := ⟨1, 1, UOStatus.inProgress, []⟩

/-- An operation row that already reached the terminal status `success`. -/
def opTerminalSuccess : UpgradeOperation := ⟨1, 1, UOStatus.success, []⟩

/-- Another operation row for the same device, currently `in-progress`. -/
def otherInProgress : OpRef := ⟨2, 1, UOStatus.inProgress⟩

/-- Environment where a concurrent in-progress operation exists for the
same device. -/
def envConflict : UpgradeEnv :=
  ⟨ConnAcquire.ok demoConn, [otherInProgress], true, UpgraderOutcome.ok, 0⟩

/-- Environment of a clean successful run. -/
def envOkRun : UpgradeEnv :=
  ⟨ConnAcquire.ok demoConn, [], true, UpgraderOutcome.ok, 0⟩

/-- Environment where the upgrader raises an unexpected error. -/
def envUnexpected : UpgradeEnv :=
  ⟨ConnAcquire.ok demoConn, [], true,
   UpgraderOutcome.unexpectedError "unexpected error", 0⟩

/-- Environment where the upgrader raises `ReconnectionFailed`. -/
def envReconnFailed : UpgradeEnv :=
  ⟨ConnAcquire.ok demoConn, [], true,
   UpgraderOutcome.reconnectionFailed "Giving up, device not reachable", 5⟩

/-- Environment where the upgrader raises `RecoverableFailure`. -/
def envRecoverable : UpgradeEnv :=
  ⟨ConnAcquire.ok demoConn, [], true,
   UpgraderOutcome.recoverableFailure "connection reset", 0⟩

/-- Environment where the upgrader raises `UpgradeNotNeeded`. -/
def envNotNeeded : UpgradeEnv :=
  ⟨ConnAcquire.ok demoConn, [], true, UpgraderOutcome.notNeeded, 0⟩

/-- Environment where the upgrader raises `UpgradeAborted`. -/
def envUpgradeAborted : UpgradeEnv :=
  ⟨ConnAcquire.ok demoConn, [], true, UpgraderOutcome.upgradeAborted, 0⟩

/-- A `FirmwareImage` row as used by the batch orchestrator: primary key
(a random UUID in the code, abstracted to `Nat`), its build foreign key,
the build's category (denormalised from `image.build.category_id`), the
`type` tag and the creation timestamp. `AbstractFirmwareImage.Meta`
declares `unique_together = ("build", "type")` and no ordering. -/
structure FirmwareImage where
  pk : Nat
  buildPk : Nat
  categoryPk : Nat
  typeTag : String
  created : Nat
deriving DecidableEq

/-- An `AbstractDeviceFirmware` row binding a device to its current image,
with the `installed` flag and creation timestamp. -/
structure DeviceFirmware where
  device : Nat
  image : FirmwareImage
  installed : Bool
  created : Nat
deriving DecidableEq

/-- An `AbstractBuild` row with its category and its `firmwareimage_set`. -/
structure Build where
  pk : Nat
  categoryPk : Nat
  images : List FirmwareImage
deriving DecidableEq

/-- Insertion step of the `order_by("-created")` sort. -/
def insertByCreatedDesc (df : DeviceFirmware) :
    List DeviceFirmware → List DeviceFirmware
  | [] => [df]
  | x :: xs =>
      if x.created ≤ df.created then df :: x :: xs
      else x :: insertByCreatedDesc df xs

/-- `order_by("-created")`: sorts DeviceFirmware rows by descending
creation time. -/
def sortByCreatedDesc : List DeviceFirmware → List DeviceFirmware
  | [] => []
  | x :: xs => insertByCreatedDesc x (sortByCreatedDesc xs)

/-- `AbstractBuild._find_related_device_firmwares`: the queryset
`DeviceFirmware.objects.filter(image__build__category_id=self.category_id)`
`.exclude(image__build=self, installed=True).order_by("-created")` — rows
whose image is in this build's category, excluding only rows that are on an
image of this build AND already installed. -/
def findRelatedDeviceFirmwares (build : Build) (allDF : List DeviceFirmware) :
    List DeviceFirmware :=
  sortByCreatedDesc (allDF.filter (fun df =>
    df.image.categoryPk == build.categoryPk
      && !(df.image.buildPk == build.pk && df.installed)))

/-- The selection as the claim words it: devices whose current
DeviceFirmware image belongs to the build's category but is not already an
image from this build (no `installed` condition). Stated for comparison
with `findRelatedDeviceFirmwares`. -/
def specRelatedSelection (build : Build) (allDF : List DeviceFirmware) :
    List DeviceFirmware :=
  allDF.filter (fun df =>
    df.image.categoryPk == build.categoryPk && df.image.buildPk != build.pk)

/-- Django `QuerySet.first()` on the unordered `firmwareimage_set`
queryset: `FirmwareImage` declares no `Meta.ordering`, so Django orders by
primary key and returns the row with the smallest pk. -/
def firstByPk : List FirmwareImage → Option FirmwareImage
  | [] => none
  | x :: xs =>
      match firstByPk xs with
      | none => some x
      | some y => if x.pk ≤ y.pk then some x else some y

/-- `self.build.firmwareimage_set.filter(type=device_fw.image.type).first()`
in `AbstractBatchUpgradeOperation.upgrade_related_devices`. -/
def chooseImage (build : Build) (t : String) : Option FirmwareImage :=
  firstByPk (build.images.filter (fun img => img.typeTag == t))

/-- The most recently created element of a list of images. -/
def maxByCreated : List FirmwareImage → Option FirmwareImage
  | [] => none
  | x :: xs =>
      match maxByCreated xs with
      | none => some x
      | some y => if y.created ≤ x.created then some x else some y

/-- The choice as the claim words it: the first image of the given type by
descending creation time (most recently added wins). Stated for comparison
with `chooseImage`. -/
def specChooseImage (build : Build) (t : String) : Option FirmwareImage :=
  maxByCreated (build.images.filter (fun img => img.typeTag == t))

/-- The condition of `AbstractDeviceFirmware.save` under which re-pointing
the DeviceFirmware launches an upgrade operation:
`self.image_has_changed or not self.installed` (with `upgrade=True`, the
default used by `upgrade_related_devices`). -/
def saveCreatesOperation (old : DeviceFirmware) (newImg : FirmwareImage) : Bool :=
  newImg.pk != old.image.pk || !old.installed

/-- The effect of `upgrade_related_devices` on one selected DeviceFirmware:
the row it started from, the image of this build it was re-pointed to (none
when no image of the build has the matching type tag — the device is then
skipped), and whether an UpgradeOperation owned by the batch was created. -/
structure RelatedAction where
  oldDf : DeviceFirmware
  newImage : Option FirmwareImage
  operationCreated : Bool
deriving DecidableEq

/-- `AbstractBatchUpgradeOperation.upgrade_related_devices`: for every
DeviceFirmware returned by `_find_related_device_firmwares`, looks up this
build's image of the matching type; if one exists, re-points the
DeviceFirmware to it and saves with this batch as owner (which launches an
UpgradeOperation when the image changed or the firmware is not installed);
otherwise the device is skipped. -/
def upgradeRelatedDevices (build : Build) (allDF : List DeviceFirmware) :
    List RelatedAction :=
  (findRelatedDeviceFirmwares build allDF).map (fun df =>
    match chooseImage build df.image.typeTag with
    | some img => ⟨df, some img, saveCreatesOperation df img⟩
    | none => ⟨df, none, false⟩)

/-- Rounding half to even on rationals: the `ROUND_HALF_EVEN` mode Python's
`Decimal` context applies in `round(result, 2)`. -/
def roundHalfEven (q : ℚ) : ℤ :=
  if Int.fract q = 1 / 2 then (if 2 ∣ ⌊q⌋ then ⌊q⌋ else ⌊q⌋ + 1) else round q

/-- `round(x, 2)` on Python `Decimal`s: round to two decimal places, half
to even (the 28-significant-digit `Decimal` context is modelled as exact
rational arithmetic). -/
def round2 (q : ℚ) : ℚ := (roundHalfEven (q * 100) : ℚ) / 100

/-- `AbstractBatchUpgradeOperation.total_operations`:
`self.upgrade_operations.count()`. -/
def totalOperations (ops : List UOStatus) : Nat := ops.length

/-- `AbstractBatchUpgradeOperation.__get_rate`:
`Decimal(number) / Decimal(self.total_operations) * 100`, rounded to two
places; the division has no guard of its own, so it is modelled as failing
(`none`) on a zero divisor. -/
def getRate (number total : Nat) : Option ℚ :=
  if total = 0 then none
  else some (round2 ((number : ℚ) / (total : ℚ) * 100))

/-- `AbstractBatchUpgradeOperation.success_rate`: 0 when the batch has no
child operations, otherwise the rate of `success` children. -/
def successRate (ops : List UOStatus) : Option ℚ :=
  if totalOperations ops = 0 then some 0
  else getRate (ops.countP (· == UOStatus.success)) (totalOperations ops)

/-- `AbstractBatchUpgradeOperation.failed_rate`. -/
def failedRate (ops : List UOStatus) : Option ℚ :=
  if totalOperations ops = 0 then some 0
  else getRate (ops.countP (· == UOStatus.failed)) (totalOperations ops)

/-- `AbstractBatchUpgradeOperation.aborted_rate`. -/
def abortedRate (ops : List UOStatus) : Option ℚ :=
  if totalOperations ops = 0 then some 0
  else getRate (ops.countP (· == UOStatus.aborted)) (totalOperations ops)

/-- An image of build 7 (category 3). -/
def imgOfBuildSeven : FirmwareImage := ⟨2, 7, 3, "tplink", 20⟩

/-- Build 7 with its single image. -/
def buildSeven : Build := ⟨7, 3, [imgOfBuildSeven]⟩

/-- A DeviceFirmware already pointing at build 7's image but with
`installed = False`. -/
def dfPendingOnBuildSeven : DeviceFirmware := ⟨1, imgOfBuildSeven, false, 30⟩

/-- An image of a different build (6) in the same category 3. -/
def imgOfBuildSix : FirmwareImage := ⟨5, 6, 3, "tplink", 10⟩

/-- A DeviceFirmware installed on build 6's image, related to build 7 by
category. -/
def dfInstalledOnBuildSix : DeviceFirmware := ⟨1, imgOfBuildSix, true, 15⟩

/-- Two images of build 8 sharing the same type tag: the older one has the
smaller primary key. -/
def imgDupOlder : FirmwareImage := ⟨1, 8, 3, "tplink", 10⟩

/-- The more recently created duplicate, with the larger primary key. -/
def imgDupNewer : FirmwareImage := ⟨2, 8, 3, "tplink", 20⟩

/-- Build 8 containing two images of the same type. -/
def buildEight : Build := ⟨8, 3, [imgDupOlder, imgDupNewer]⟩

/-- Build 9 whose images have pairwise distinct types, as the
`unique_together ("build", "type")` constraint guarantees. -/
def buildNine : Build := ⟨9, 3, [⟨1, 9, 3, "tplink", 10⟩, ⟨2, 9, 3, "ar71xx", 11⟩]⟩

end FwUpgrader

namespace FwUpgrader

theorem any_beq_iff_mem (l : List UOStatus) (s : UOStatus) :
    l.any (· == s) = true ↔ s ∈ l := by
  simp [List.any_eq_true, beq_iff_eq]

/-- C1: `BatchUpgradeOperation.update()` leaves the batch status unchanged
while at least one child operation is `in-progress`; once no child is
`in-progress`, it sets the status to `failed` if at least one child is
`failed`, and to `success` otherwise — in particular a batch whose children
are all `aborted` (none `failed`) is set to `success`. -/
theorem C1_batch_update_rollup (children : List UOStatus) (current : BatchStatus) :
    (UOStatus.inProgress ∈ children → batchUpdate children current = current)
    ∧ (UOStatus.inProgress ∉ children → UOStatus.failed ∈ children →
        batchUpdate children current = BatchStatus.failed)
    ∧ (UOStatus.inProgress ∉ children → UOStatus.failed ∉ children →
        batchUpdate children current = BatchStatus.success) := by
  refine ⟨?_, ?_, ?_⟩
  · intro h
    unfold batchUpdate
    rw [if_pos ((any_beq_iff_mem children .inProgress).mpr h)]
  · intro h1 h2
    unfold batchUpdate
    rw [if_neg, if_pos ((any_beq_iff_mem children .failed).mpr h2)]
    intro hc
    exact h1 ((any_beq_iff_mem children .inProgress).mp hc)
  · intro h1 h2
    unfold batchUpdate
    rw [if_neg, if_neg]
    · intro hc
      exact h2 ((any_beq_iff_mem children .failed).mp hc)
    · intro hc
      exact h1 ((any_beq_iff_mem children .inProgress).mp hc)

/-- Witness for C1 at concrete child lists: a child still in progress keeps
the current status, a failed child yields `failed`, and an all-aborted batch
yields `success`. -/
theorem C1_batch_update_rollup_witness :
    batchUpdate [UOStatus.inProgress, UOStatus.failed] BatchStatus.inProgress
      = BatchStatus.inProgress
    ∧ batchUpdate [UOStatus.failed, UOStatus.success] BatchStatus.idle
      = BatchStatus.failed
    ∧ batchUpdate [UOStatus.aborted, UOStatus.aborted] BatchStatus.inProgress
      = BatchStatus.success :=
  ⟨(C1_batch_update_rollup _ _).1 (by decide),
   (C1_batch_update_rollup _ _).2.1 (by decide) (by decide),
   (C1_batch_update_rollup _ _).2.2 (by decide) (by decide)⟩

theorem conflict_queryset_pos_iff (allOps : List OpRef) (device pk : Nat) :
    0 < (conflictQueryset allOps device pk).length ↔
      ∃ o ∈ allOps, o.device = device ∧ o.status = UOStatus.inProgress ∧ o.pk ≠ pk := by
  unfold conflictQueryset
  rw [List.length_pos_iff_exists_mem]
  simp [List.mem_filter]
  tauto

/-- C2: when `upgrade()` has obtained a working connection and another
operation for the same device is currently `in-progress`, this operation
transitions to `aborted`, logs the conflict, and stops without invoking the
upgrader; conversely the upgrader is only ever invoked when no other
in-progress operation for the device exists, so at most one operation per
device is actively upgrading. -/
theorem C2_device_mutual_exclusion (env : UpgradeEnv) (recoverable : Bool)
    (op : UpgradeOperation) :
    ((∃ c, env.connResult = ConnAcquire.ok c) →
      (∃ o ∈ env.allOps, o.device = op.device ∧ o.status = UOStatus.inProgress
        ∧ o.pk ≠ op.pk) →
      (upgradeRun env recoverable op).op.status = UOStatus.aborted
        ∧ (upgradeRun env recoverable op).upgraderInvoked = false
        ∧ abortingMessage ∈ (upgradeRun env recoverable op).op.log)
    ∧ ((upgradeRun env recoverable op).upgraderInvoked = true →
      ¬ ∃ o ∈ env.allOps, o.device = op.device ∧ o.status = UOStatus.inProgress
        ∧ o.pk ≠ op.pk) := by
  obtain ⟨cr, ops, cls, outc, now⟩ := env
  constructor
  · rintro ⟨c, rfl⟩ hex
    have hpos : 0 < (conflictQueryset ops op.device op.pk).length :=
      (conflict_queryset_pos_iff ops op.device op.pk).mpr hex
    simp [upgradeRun, hpos, logLine]
  · intro hinv hex
    cases cr with
    | noConnObjects => simp [upgradeRun] at hinv
    | allConnectionsFailed logs =>
        by_cases hr : recoverable <;> simp [upgradeRun, hr] at hinv
    | ok c =>
        have hpos : 0 < (conflictQueryset ops op.device op.pk).length :=
          (conflict_queryset_pos_iff ops op.device op.pk).mpr hex
        simp [upgradeRun, hpos] at hinv

/-- Witness for C2: with a concurrent in-progress operation for device 1 the
run aborts without invoking the upgrader; in a clean run the upgrader is
invoked and indeed no concurrent in-progress operation exists. -/
theorem C2_device_mutual_exclusion_witness :
    ((upgradeRun envConflict true opA).op.status = UOStatus.aborted
      ∧ (upgradeRun envConflict true opA).upgraderInvoked = false
      ∧ abortingMessage ∈ (upgradeRun envConflict true opA).op.log)
    ∧ ¬ ∃ o ∈ envOkRun.allOps, o.device = opA.device
        ∧ o.status = UOStatus.inProgress ∧ o.pk ≠ opA.pk :=
  ⟨(C2_device_mutual_exclusion envConflict true opA).1 ⟨demoConn, rfl⟩ (by decide),
   (C2_device_mutual_exclusion envOkRun true opA).2 (by decide)⟩

/-- C3 (counterexample): the claim says an unexpected error marks the
DeviceFirmware installed, but on a concrete run whose upgrader raises a
generic unexpected exception the status becomes `failed`, the error text is
logged, and the DeviceFirmware is NOT marked installed (`installed = True`
is only set in the `ReconnectionFailed` branch of the handler, which the
repository's own test `test_sysupgrade_failure` confirms with
`assertFalse(device_fw.installed)`). -/
theorem C3_counterexample :
    (upgradeRun envUnexpected true opA).op.status = UOStatus.failed
    ∧ "unexpected error" ∈ (upgradeRun envUnexpected true opA).op.log
    ∧ ¬ (upgradeRun envUnexpected true opA).markedInstalled = true := by
  decide

/-- C3 (amended): on any unexpected error (an exception other than the
`UpgradeNotNeeded`, `UpgradeAborted`, `RecoverableFailure` and
`ReconnectionFailed` classifications) `upgrade()` sets the status to
`failed` and appends the error text to the log, but does not mark the
device's DeviceFirmware as installed. -/
theorem C3_unexpected_error (env : UpgradeEnv) (recoverable : Bool)
    (op : UpgradeOperation) (c : DeviceConnection) (msg : String)
    (hconn : env.connResult = ConnAcquire.ok c)
    (hnoc : (conflictQueryset env.allOps op.device op.pk).length = 0)
    (hcls : env.upgraderClassFound = true)
    (hout : env.outcome = UpgraderOutcome.unexpectedError msg) :
    (upgradeRun env recoverable op).op.status = UOStatus.failed
    ∧ msg ∈ (upgradeRun env recoverable op).op.log
    ∧ (upgradeRun env recoverable op).markedInstalled = false := by
  obtain ⟨cr, ops, cls, outc, now⟩ := env
  simp only at hconn hnoc hcls hout
  subst hconn hcls hout
  simp [upgradeRun, hnoc, logLine]

/-- Witness for C3 at a concrete unexpected-error run. -/
theorem C3_unexpected_error_witness :
    (upgradeRun envUnexpected false opA).op.status = UOStatus.failed
    ∧ "unexpected error" ∈ (upgradeRun envUnexpected false opA).op.log
    ∧ (upgradeRun envUnexpected false opA).markedInstalled = false :=
  C3_unexpected_error envUnexpected false opA demoConn "unexpected error"
    rfl (by decide) rfl rfl

/-- C4: on `ReconnectionFailed` the operation status becomes `failed`, the
DeviceFirmware is still marked installed, and the connection row is flagged
not working, with the (non-empty) failure reason and with `last_attempt` set
to the clock value sampled after the upgrader invocation (the `nowSampled`
event occurs after `upgraderInvoked` in the trace). -/
theorem C4_reconnection_failed (env : UpgradeEnv) (recoverable : Bool)
    (op : UpgradeOperation) (c : DeviceConnection) (msg : String)
    (hconn : env.connResult = ConnAcquire.ok c)
    (hnoc : (conflictQueryset env.allOps op.device op.pk).length = 0)
    (hcls : env.upgraderClassFound = true)
    (hout : env.outcome = UpgraderOutcome.reconnectionFailed msg)
    (hmsg : msg ≠ "") :
    (upgradeRun env recoverable op).op.status = UOStatus.failed
    ∧ (upgradeRun env recoverable op).markedInstalled = true
    ∧ (upgradeRun env recoverable op).conn
        = some (DeviceConnection.mk false msg env.now)
    ∧ (∀ dc, (upgradeRun env recoverable op).conn = some dc →
        dc.is_working = false ∧ dc.failure_reason ≠ "")
    ∧ (∃ l1 l2 l3, (upgradeRun env recoverable op).events
        = l1 ++ RunEvent.upgraderInvoked :: (l2 ++ RunEvent.nowSampled env.now :: l3)) := by
  obtain ⟨cr, ops, cls, outc, now⟩ := env
  simp only at hconn hnoc hcls hout ⊢
  subst hconn hcls hout
  refine ⟨?_, ?_, ?_, ?_, ?_⟩
  · simp [upgradeRun, hnoc]
  · simp [upgradeRun, hnoc]
  · simp [upgradeRun, hnoc]
  · intro dc hdc
    simp [upgradeRun, hnoc] at hdc
    subst hdc
    simpa using hmsg
  · refine ⟨[], [RunEvent.logAppend msg, RunEvent.opSaved,
      RunEvent.statusSet UOStatus.failed],
      [RunEvent.connSaved, RunEvent.opSaved, RunEvent.dfMarkedInstalled], ?_⟩
    simp [upgradeRun, hnoc]

/-- Witness for C4 at a concrete reconnection-failure run. -/
theorem C4_reconnection_failed_witness :
    (upgradeRun envReconnFailed true opA).op.status = UOStatus.failed
    ∧ (upgradeRun envReconnFailed true opA).markedInstalled = true
    ∧ (upgradeRun envReconnFailed true opA).conn
        = some (DeviceConnection.mk false "Giving up, device not reachable" 5)
    ∧ (∀ dc, (upgradeRun envReconnFailed true opA).conn = some dc →
        dc.is_working = false ∧ dc.failure_reason ≠ "")
    ∧ (∃ l1 l2 l3, (upgradeRun envReconnFailed true opA).events
        = l1 ++ RunEvent.upgraderInvoked :: (l2 ++ RunEvent.nowSampled 5 :: l3)) :=
  C4_reconnection_failed envReconnFailed true opA demoConn
    "Giving up, device not reachable" rfl (by decide) rfl rfl (by decide)

theorem raised_only_via_handler (env : UpgradeEnv) (r : Bool) (op : UpgradeOperation)
    (h : (upgradeRun env r op).raised = true) :
    r = true ∧ ((∃ logs, env.connResult = ConnAcquire.allConnectionsFailed logs)
      ∨ (∃ m, env.outcome = UpgraderOutcome.recoverableFailure m)) := by
  obtain ⟨cr, ops, cls, outc, now⟩ := env
  cases cr with
  | noConnObjects => simp [upgradeRun] at h
  | allConnectionsFailed logs =>
      by_cases hr : r
      · exact ⟨hr, Or.inl ⟨logs, rfl⟩⟩
      · simp [upgradeRun, hr] at h
  | ok c =>
      by_cases hpos : 0 < (conflictQueryset ops op.device op.pk).length
      · simp [upgradeRun, hpos] at h
      · by_cases hcls : cls
        · cases outc with
          | recoverableFailure m =>
              by_cases hr : r
              · exact ⟨hr, Or.inr ⟨m, rfl⟩⟩
              · simp [upgradeRun, hpos, hcls, hr] at h
          | notNeeded => simp [upgradeRun, hpos, hcls] at h
          | upgradeAborted => simp [upgradeRun, hpos, hcls] at h
          | reconnectionFailed m => simp [upgradeRun, hpos, hcls] at h
          | unexpectedError m => simp [upgradeRun, hpos, hcls] at h
          | ok => simp [upgradeRun, hpos, hcls] at h
        · simp [upgradeRun, hpos] at h
          simp [Bool.not_eq_true] at hcls
          simp [hcls] at h

/-- C5: on a `RecoverableFailure` with `recoverable = true`, `upgrade()`
logs the retry notice and re-raises without changing the status; with
`recoverable = false` it sets the status to `failed`; and this handler
re-raise (also used when all connections failed) is the only way an
exception ever escapes `upgrade()`. -/
theorem C5_recoverable_failure (env : UpgradeEnv) (recoverable : Bool)
    (op : UpgradeOperation) (c : DeviceConnection) (msg : String)
    (hconn : env.connResult = ConnAcquire.ok c)
    (hnoc : (conflictQueryset env.allOps op.device op.pk).length = 0)
    (hcls : env.upgraderClassFound = true)
    (hout : env.outcome = UpgraderOutcome.recoverableFailure msg) :
    (recoverable = true →
      (upgradeRun env recoverable op).raised = true
      ∧ (upgradeRun env recoverable op).op.status = op.status
      ∧ retriedSoonMessage ∈ (upgradeRun env recoverable op).op.log)
    ∧ (recoverable = false →
      (upgradeRun env recoverable op).raised = false
      ∧ (upgradeRun env recoverable op).op.status = UOStatus.failed)
    ∧ (∀ env2 r2 op2, (upgradeRun env2 r2 op2).raised = true →
      r2 = true ∧ ((∃ logs, env2.connResult = ConnAcquire.allConnectionsFailed logs)
        ∨ (∃ m, env2.outcome = UpgraderOutcome.recoverableFailure m))) := by
  obtain ⟨cr, ops, cls, outc, now⟩ := env
  simp only at hconn hnoc hcls hout
  subst hconn hcls hout
  refine ⟨?_, ?_, fun env2 r2 op2 h => raised_only_via_handler env2 r2 op2 h⟩
  · intro hr
    subst hr
    simp [upgradeRun, hnoc, recoverableFailureHandler, logLine]
  · intro hr
    subst hr
    simp [upgradeRun, hnoc, recoverableFailureHandler, logLine]

/-- Witness for C5: concrete recoverable-failure runs with `recoverable`
true (re-raised, status untouched, retry notice logged) and false (status
`failed`). -/
theorem C5_recoverable_failure_witness :
    (upgradeRun envRecoverable true opA).raised = true
    ∧ (upgradeRun envRecoverable true opA).op.status = opA.status
    ∧ retriedSoonMessage ∈ (upgradeRun envRecoverable true opA).op.log
    ∧ (upgradeRun envRecoverable false opA).op.status = UOStatus.failed := by
  have h1 := C5_recoverable_failure envRecoverable true opA demoConn
    "connection reset" rfl (by decide) rfl rfl
  have h2 := C5_recoverable_failure envRecoverable false opA demoConn
    "connection reset" rfl (by decide) rfl rfl
  exact ⟨(h1.1 rfl).1, (h1.1 rfl).2.1, (h1.1 rfl).2.2, (h2.2.1 rfl).2⟩

/-- C6: `UpgradeNotNeeded` yields status `success` with the DeviceFirmware
marked installed; `UpgradeAborted` yields status `aborted` with the
DeviceFirmware left unmarked. -/
theorem C6_not_needed_vs_aborted (env : UpgradeEnv) (recoverable : Bool)
    (op : UpgradeOperation) (c : DeviceConnection)
    (hconn : env.connResult = ConnAcquire.ok c)
    (hnoc : (conflictQueryset env.allOps op.device op.pk).length = 0)
    (hcls : env.upgraderClassFound = true) :
    (env.outcome = UpgraderOutcome.notNeeded →
      (upgradeRun env recoverable op).op.status = UOStatus.success
      ∧ (upgradeRun env recoverable op).markedInstalled = true)
    ∧ (env.outcome = UpgraderOutcome.upgradeAborted →
      (upgradeRun env recoverable op).op.status = UOStatus.aborted
      ∧ (upgradeRun env recoverable op).markedInstalled = false) := by
  obtain ⟨cr, ops, cls, outc, now⟩ := env
  simp only at hconn hnoc hcls ⊢
  subst hconn hcls
  constructor
  · rintro rfl
    simp [upgradeRun, hnoc]
  · rintro rfl
    simp [upgradeRun, hnoc]

/-- Witness for C6 at concrete not-needed and aborted runs. -/
theorem C6_not_needed_vs_aborted_witness :
    ((upgradeRun envNotNeeded true opA).op.status = UOStatus.success
      ∧ (upgradeRun envNotNeeded true opA).markedInstalled = true)
    ∧ ((upgradeRun envUpgradeAborted true opA).op.status = UOStatus.aborted
      ∧ (upgradeRun envUpgradeAborted true opA).markedInstalled = false) :=
  ⟨(C6_not_needed_vs_aborted envNotNeeded true opA demoConn rfl (by decide) rfl).1 rfl,
   (C6_not_needed_vs_aborted envUpgradeAborted true opA demoConn rfl (by decide) rfl).2 rfl⟩

theorem statusOfEvent_logAppend_filterMap (lines : List String) :
    List.filterMap (statusOfEvent ∘ RunEvent.logAppend) lines = [] := by
  induction lines with
  | nil => rfl
  | cons x xs ih => simp [statusOfEvent]

/-- C9 (counterexample): the claim says a terminal status never changes
again, even under a repeated invocation of `upgrade()`; but `upgrade()` has
no terminal-status guard, and re-invoking it on an operation already at the
terminal status `success` while another operation for the device is
in-progress rewrites the status to `aborted`. -/
theorem C9_counterexample :
    opTerminalSuccess.status = UOStatus.success
    ∧ (upgradeRun envConflict true opTerminalSuccess).op.status = UOStatus.aborted
    ∧ UOStatus.aborted ≠ UOStatus.success := by
  decide

/-- C9 (amended): within a single invocation of `upgrade()` the status field
is assigned at most once, and never back to `in-progress` — so each run
performs at most one terminal write, with log appends possibly occurring
before it; the code does not, however, prevent a later re-invocation of
`upgrade()` from overwriting a terminal status. -/
theorem C9_single_terminal_write_per_run (env : UpgradeEnv) (r : Bool)
    (op : UpgradeOperation) :
    (statusWrites (upgradeRun env r op)).length ≤ 1
    ∧ ∀ s ∈ statusWrites (upgradeRun env r op), s ≠ UOStatus.inProgress := by
  obtain ⟨cr, ops, cls, outc, now⟩ := env
  cases cr with
  | noConnObjects => simp [upgradeRun, statusWrites, statusOfEvent]
  | allConnectionsFailed logs =>
      by_cases hr : r <;>
        simp [upgradeRun, statusWrites, hr, recoverableFailureHandler,
          statusOfEvent_logAppend_filterMap, statusOfEvent]
  | ok c =>
      by_cases hpos : 0 < (conflictQueryset ops op.device op.pk).length
      · simp [upgradeRun, statusWrites, hpos, statusOfEvent]
      · by_cases hcls : cls
        · cases outc with
          | recoverableFailure m =>
              by_cases hr : r <;>
                simp [upgradeRun, statusWrites, hpos, hcls, hr,
                  recoverableFailureHandler, statusOfEvent]
          | notNeeded => simp [upgradeRun, statusWrites, hpos, hcls, statusOfEvent]
          | upgradeAborted => simp [upgradeRun, statusWrites, hpos, hcls, statusOfEvent]
          | reconnectionFailed m =>
              simp [upgradeRun, statusWrites, hpos, hcls, statusOfEvent]
          | unexpectedError m =>
              simp [upgradeRun, statusWrites, hpos, hcls, statusOfEvent]
          | ok => simp [upgradeRun, statusWrites, hpos, hcls, statusOfEvent]
        · simp [Bool.not_eq_true] at hcls
          simp [upgradeRun, statusWrites, hpos, hcls, statusOfEvent]

/-- Witness for C9 at a concrete successful run, whose single status write
is `success` (not `in-progress`). -/
theorem C9_single_terminal_write_per_run_witness :
    (statusWrites (upgradeRun envOkRun true opA)).length ≤ 1
    ∧ UOStatus.success ≠ UOStatus.inProgress :=
  ⟨(C9_single_terminal_write_per_run envOkRun true opA).1,
   (C9_single_terminal_write_per_run envOkRun true opA).2 UOStatus.success (by decide)⟩

theorem mem_insertByCreatedDesc (a x : DeviceFirmware) (l : List DeviceFirmware) :
    x ∈ insertByCreatedDesc a l ↔ x = a ∨ x ∈ l := by
  induction l with
  | nil => simp [insertByCreatedDesc]
  | cons y ys ih =>
      by_cases hc : y.created ≤ a.created
      · simp [insertByCreatedDesc, hc]
      · simp [insertByCreatedDesc, hc, ih]
        tauto

theorem mem_sortByCreatedDesc (x : DeviceFirmware) (l : List DeviceFirmware) :
    x ∈ sortByCreatedDesc l ↔ x ∈ l := by
  induction l with
  | nil => simp [sortByCreatedDesc]
  | cons y ys ih => simp [sortByCreatedDesc, mem_insertByCreatedDesc, ih]

theorem mem_findRelated (build : Build) (allDF : List DeviceFirmware)
    (df : DeviceFirmware) :
    df ∈ findRelatedDeviceFirmwares build allDF ↔
      df ∈ allDF ∧ df.image.categoryPk = build.categoryPk
        ∧ ¬(df.image.buildPk = build.pk ∧ df.installed = true) := by
  unfold findRelatedDeviceFirmwares
  rw [mem_sortByCreatedDesc]
  simp [List.mem_filter]
  tauto

theorem firstByPk_mem (l : List FirmwareImage) (y : FirmwareImage)
    (h : firstByPk l = some y) : y ∈ l := by
  induction l with
  | nil => simp [firstByPk] at h
  | cons x xs ih =>
      unfold firstByPk at h
      cases hx : firstByPk xs with
      | none =>
          rw [hx] at h
          simp at h
          simp [h]
      | some z =>
          rw [hx] at h
          by_cases hle : x.pk ≤ z.pk
          · simp [hle] at h
            simp [h]
          · simp [hle] at h
            subst h
            exact List.mem_cons_of_mem x (ih hx)

theorem firstByPk_eq_none_iff (l : List FirmwareImage) :
    firstByPk l = none ↔ l = [] := by
  cases l with
  | nil => simp [firstByPk]
  | cons x xs =>
      simp [firstByPk]
      cases hx : firstByPk xs with
      | none => simp
      | some z =>
          by_cases hle : x.pk ≤ z.pk <;> simp [hle]

theorem firstByPk_all_eq (a : FirmwareImage) (l : List FirmwareImage)
    (hne : l ≠ []) (hall : ∀ x ∈ l, x = a) : firstByPk l = some a := by
  induction l with
  | nil => exact absurd rfl hne
  | cons x xs ih =>
      have hx : x = a := hall x (List.mem_cons_self x xs)
      subst hx
      by_cases hnil : xs = []
      · subst hnil
        simp [firstByPk]
      · have hrec := ih hnil (fun y hy => hall y (List.mem_cons_of_mem x hy))
        simp [firstByPk, hrec]

/-- C7 (counterexample): the claim says the selected DeviceFirmwares are
exactly those whose image is in the build's category but not already an
image from this build; the code's `exclude(image__build=self,
installed=True)` only drops rows that are on this build's image AND
installed, so a DeviceFirmware pointing at this build's image with
`installed = False` is selected by the code although the claim's wording
excludes it. -/
theorem C7_counterexample :
    dfPendingOnBuildSeven
      ∈ findRelatedDeviceFirmwares buildSeven [dfPendingOnBuildSeven]
    ∧ dfPendingOnBuildSeven
      ∉ specRelatedSelection buildSeven [dfPendingOnBuildSeven] := by
  decide

/-- C7 (amended): `upgrade_related_devices` selects exactly the
DeviceFirmwares whose image belongs to the build's category, excluding only
those already installed on an image of this build; each selected row is
re-pointed to this build's image with the matching type tag (rows with no
type-matching image in the build are skipped) and an UpgradeOperation owned
by this batch is triggered for every re-pointed row. Hypotheses: the
build's image set is consistent (`image.build` foreign keys point back to
the build) and image primary keys are unambiguous. -/
theorem C7_upgrade_related_devices (build : Build) (allDF : List DeviceFirmware)
    (hb : ∀ img ∈ build.images, img.buildPk = build.pk)
    (hinj : ∀ df ∈ allDF, ∀ img ∈ build.images, img.pk = df.image.pk → img = df.image) :
    (∀ df, df ∈ findRelatedDeviceFirmwares build allDF ↔
      df ∈ allDF ∧ df.image.categoryPk = build.categoryPk
        ∧ ¬(df.image.buildPk = build.pk ∧ df.installed = true))
    ∧ (∀ act ∈ upgradeRelatedDevices build allDF,
        (act.newImage = none →
          ∀ img ∈ build.images, img.typeTag ≠ act.oldDf.image.typeTag)
        ∧ (∀ img, act.newImage = some img →
          img ∈ build.images ∧ img.typeTag = act.oldDf.image.typeTag
            ∧ act.operationCreated = true)) := by
  refine ⟨fun df => mem_findRelated build allDF df, ?_⟩
  intro act hact
  unfold upgradeRelatedDevices at hact
  rw [List.mem_map] at hact
  obtain ⟨df, hdf, hacteq⟩ := hact
  have hsel := (mem_findRelated build allDF df).mp hdf
  cases hchoose : chooseImage build df.image.typeTag with
  | none =>
      rw [hchoose] at hacteq
      subst hacteq
      constructor
      · intro _ img himg hteq
        unfold chooseImage at hchoose
        rw [firstByPk_eq_none_iff] at hchoose
        have : img ∈ build.images.filter (fun i => i.typeTag == df.image.typeTag) :=
          List.mem_filter.mpr ⟨himg, by simp [hteq]⟩
        rw [hchoose] at this
        exact absurd this (List.not_mem_nil img)
      · intro img himg
        simp at himg
  | some img0 =>
      rw [hchoose] at hacteq
      subst hacteq
      constructor
      · intro hnone
        simp at hnone
      · intro img himg
        simp at himg
        subst himg
        have hmemf : img0 ∈ build.images.filter (fun i => i.typeTag == df.image.typeTag) := by
          apply firstByPk_mem
          simpa [chooseImage] using hchoose
        obtain ⟨himg0mem, htag⟩ := List.mem_filter.mp hmemf
        have htageq : img0.typeTag = df.image.typeTag := by simpa using htag
        refine ⟨himg0mem, htageq, ?_⟩
        show saveCreatesOperation df img0 = true
        unfold saveCreatesOperation
        by_cases hins : df.installed
        · have hnb : df.image.buildPk ≠ build.pk := by
            rcases hsel with ⟨_, _, hnot⟩
            intro heq
            exact hnot ⟨heq, hins⟩
          have hpkne : img0.pk ≠ df.image.pk := by
            intro hpk
            have himg0eq : img0 = df.image := hinj df hsel.1 img0 himg0mem hpk
            have hbp : img0.buildPk = build.pk := hb img0 himg0mem
            rw [himg0eq] at hbp
            exact hnb hbp
          simp [hpkne]
        · simp [hins]

/-- Witness for C7: a DeviceFirmware installed on another build of the
category is selected, the build's type-matching image is the re-point
target, and an operation owned by the batch is created. -/
theorem C7_upgrade_related_devices_witness :
    dfInstalledOnBuildSix
      ∈ findRelatedDeviceFirmwares buildSeven [dfInstalledOnBuildSix]
    ∧ imgOfBuildSeven ∈ buildSeven.images
    ∧ imgOfBuildSeven.typeTag = dfInstalledOnBuildSix.image.typeTag
    ∧ (RelatedAction.mk dfInstalledOnBuildSix (some imgOfBuildSeven) true).operationCreated
        = true :=
  ⟨((C7_upgrade_related_devices buildSeven [dfInstalledOnBuildSix]
      (by decide) (by decide)).1 dfInstalledOnBuildSix).mpr (by decide),
   ((C7_upgrade_related_devices buildSeven [dfInstalledOnBuildSix]
      (by decide) (by decide)).2
      (RelatedAction.mk dfInstalledOnBuildSix (some imgOfBuildSeven) true)
      (by decide)).2 imgOfBuildSeven rfl⟩

/-- C8 (counterexample): the claim says that among several same-type images
the first by descending creation time is chosen; `firmwareimage_set` has no
ordering, so `first()` returns the smallest primary key, which here is the
older image, not the most recently created one. -/
theorem C8_counterexample :
    chooseImage buildEight "tplink" = some imgDupOlder
    ∧ specChooseImage buildEight "tplink" = some imgDupNewer
    ∧ imgDupOlder.created < imgDupNewer.created
    ∧ chooseImage buildEight "tplink" ≠ specChooseImage buildEight "tplink" := by
  decide

/-- C8 (amended): the `unique_together ("build", "type")` constraint on
`FirmwareImage` means a build never holds two images of the same type, so
the image chosen when re-pointing a related DeviceFirmware is the unique
image of the matching type; were duplicates present, `first()` on the
unordered queryset would return the row with the smallest primary key (a
random UUID), not the most recently created one. -/
theorem C8_image_type_choice (build : Build) (img : FirmwareImage)
    (huniq : ∀ i1 ∈ build.images, ∀ i2 ∈ build.images,
      i1.typeTag = i2.typeTag → i1 = i2)
    (hmem : img ∈ build.images) :
    chooseImage build img.typeTag = some img := by
  unfold chooseImage
  have himgf : img ∈ build.images.filter (fun i => i.typeTag == img.typeTag) :=
    List.mem_filter.mpr ⟨hmem, by simp⟩
  apply firstByPk_all_eq
  · exact List.ne_nil_of_mem himgf
  · intro x hx
    obtain ⟨hx1, hx2⟩ := List.mem_filter.mp hx
    exact huniq x hx1 img hmem (by simpa using hx2)

/-- Witness for C8 on a build whose image types are pairwise distinct. -/
theorem C8_image_type_choice_witness :
    chooseImage buildNine "tplink" = some ⟨1, 9, 3, "tplink", 10⟩ :=
  C8_image_type_choice buildNine ⟨1, 9, 3, "tplink", 10⟩ (by decide) (by decide)

/-- C10: the batch rate properties return 0 for a batch with no child
operations and otherwise the matching children's share of all children as a
percentage rounded to two decimal places; `__get_rate`'s division is only
reached with a non-zero divisor, so computing a rate never fails. -/
theorem C10_batch_rates (ops : List UOStatus) :
    (successRate ops).isSome = true
    ∧ (failedRate ops).isSome = true
    ∧ (abortedRate ops).isSome = true
    ∧ (ops = [] → successRate ops = some 0 ∧ failedRate ops = some 0
        ∧ abortedRate ops = some 0)
    ∧ (ops ≠ [] →
        successRate ops
          = some (round2 ((ops.countP (· == UOStatus.success) : ℚ)
              / (ops.length : ℚ) * 100))
        ∧ failedRate ops
          = some (round2 ((ops.countP (· == UOStatus.failed) : ℚ)
              / (ops.length : ℚ) * 100))
        ∧ abortedRate ops
          = some (round2 ((ops.countP (· == UOStatus.aborted) : ℚ)
              / (ops.length : ℚ) * 100))) := by
  cases ops with
  | nil => simp [successRate, failedRate, abortedRate, totalOperations]
  | cons x xs =>
      have hlen : totalOperations (x :: xs) ≠ 0 := by simp [totalOperations]
      simp [successRate, failedRate, abortedRate, getRate, hlen, totalOperations]

/-- Witness for C10 at an empty batch and a one-child batch. -/
theorem C10_batch_rates_witness :
    successRate [] = some 0
    ∧ successRate [UOStatus.success]
        = some (round2 ((List.countP (· == UOStatus.success) [UOStatus.success] : ℚ)
            / ((List.length ([UOStatus.success] : List UOStatus)) : ℚ) * 100)) :=
  ⟨((C10_batch_rates []).2.2.2.1 rfl).1,
   ((C10_batch_rates [UOStatus.success]).2.2.2.2 (by decide)).1⟩

end FwUpgrader
